import Mathlib

/-
Shallow embedding of the Go package `validate` (mccoyst/validate, src/v.go).

The package walks a struct's fields via reflection, reads the `validate`
struct tag, splits it on commas, and runs the named validator functions
from a registry `V` against each field's value, collecting `BadField`
errors.  The reserved tag entry `struct` recurses into the field's value.

Modelling choices:
  * Go values, as seen through `reflect.ValueOf`, are the inductive
    `GoValue`.  `invalid` is the zero `reflect.Value` (a nil interface,
    or the `Elem` of a nil pointer); `ptrNil`/`ptrTo` are pointers;
    `structV` carries the declared fields in declaration order.
  * A `StructField` carries the declared name, the parsed struct-tag
    key/value pairs (`reflect.StructTag.Get` is `tagGet`), the
    `CanInterface` bit (false for unexported fields) and the field value.
  * Validator functions `func(interface{}) error` become
    `GoValue → Option String` (`some msg` is a non-nil error whose
    message is `msg`).  The map `V` becomes `String → Option Validator`
    (`none` is a missing key, i.e. a nil function value).
  * A Go panic is `Except.error ()`: `reflect.Value.Type` panics on the
    zero Value, which `validateAndTagPrefix` calls unguarded (its
    `t == nil` test is dead code: `Type()` never returns nil, it panics).
  * `fmt.Errorf("... %q", s)` quoting is `goQuote`; none of the strings
    used here need escape sequences, so quoting is plain double quotes.
-/

namespace Validate

mutual

inductive GoValue : Type where
  | invalid : GoValue
  | ptrNil : GoValue
  | ptrTo : GoValue → GoValue
  | structV : Fields → GoValue
  | strV : String → GoValue
  | intV : Int → GoValue

inductive Fields : Type where
  | nil : Fields
  | cons : StructField → Fields → Fields

inductive StructField : Type where
  | mk : String → List (String × String) → Bool → GoValue → StructField

end

/-- Declared name of a field (`reflect.StructField.Name`). -/
def StructField.name : StructField → String
  | .mk n _ _ _ => n

/-- Parsed struct-tag key/value pairs of a field (`reflect.StructField.Tag`). -/
def StructField.tags : StructField → List (String × String)
  | .mk _ t _ _ => t

/-- Whether `reflect.Value.CanInterface` holds for the field. -/
def StructField.canInterface : StructField → Bool
  | .mk _ _ c _ => c

/-- The field's value, as returned by `reflect.Value.Interface`. -/
def StructField.value : StructField → GoValue
  | .mk _ _ _ v => v

/-- A validator function: Go `func(interface{}) error`; `some msg` models a
non-nil error with message `msg`. -/
def Validator : Type := GoValue → Option String

/-- V is a map of tag names to validators (Go `type V map[string]func(interface{}) error`).
`none` models both a missing key and a nil stored function. -/
def V : Type := String → Option Validator

/-- BadField is an error type containing a field name and associated error. -/
structure BadField where
  Field : String
  Err : String
deriving DecidableEq, Repr

/-- The `Error()` method of `BadField`:
`fmt.Sprintf("field %s is invalid: %v", b.Field, b.Err)`. -/
def BadField.Error (b : BadField) : String :=
  "field " ++ b.Field ++ " is invalid: " ++ b.Err

/-- Go `%q` formatting of a string that needs no escapes. -/
def goQuote (s : String) : String := "\"" ++ s ++ "\""

/-- Message of `fmt.Errorf("undefined validator: %q", vt)`. -/
def undefinedValidatorMsg (vt : String) : String :=
  "undefined validator: " ++ goQuote vt

/-- `reflect.StructTag.Get`: the value of the first pair with the given key,
or `""` when the key is absent. -/
def tagGet (tags : List (String × String)) (key : String) : String :=
  match tags.find? (fun p => p.1 == key) with
  | some p => p.2
  | none => ""

/-- Helper for `splitComma`, accumulating the current chunk in reverse. -/
def splitCommaAux : List Char → List Char → List String
  | [], acc => [String.mk acc.reverse]
  | c :: cs, acc =>
    if c = ',' then String.mk acc.reverse :: splitCommaAux cs []
    else splitCommaAux cs (c :: acc)

/-- Go `strings.Split(s, ",")`: split at every comma; `""` yields `[""]`. -/
def splitComma (s : String) : List String := splitCommaAux s.data []

/-- Name resolution for one loop iteration of `validateAndTagPrefix`:
`name := f.Name; if nameTag != "" { name = f.Tag.Get(nameTag) };
if len(prefix) > 0 { name = prefix + "." + name }`. -/
def resolveName (nameTag pre fname : String) (tags : List (String × String)) : String :=
  let name := if nameTag ≠ "" then tagGet tags nameTag else fname
  if pre.length > 0 then pre ++ "." ++ name else name

/-- The contribution of a single directive entry `vt` in the loop body of
`validateAndTagPrefix`.  `nested` is the result of the recursive call used
when `vt == "struct"`; it is supplied by the caller so that the entry loop
itself is not mutually recursive with the traversal. -/
def tagEntryResult (v : V) (name : String) (nested : Except Unit (List BadField))
    (fval : GoValue) (vt : String) : Except Unit (List BadField) :=
  if vt = "struct" then nested
  else
    match v vt with
    | none => .ok [⟨name, undefinedValidatorMsg vt⟩]
    | some vf =>
      match vf fval with
      | some e => .ok [⟨name, e⟩]
      | none => .ok []

/-- The entry loop `for _, vt := range vts` of `validateAndTagPrefix`,
concatenating each entry's appended errors in order. -/
def validateTagList (v : V) (name : String) (nested : Except Unit (List BadField))
    (fval : GoValue) : List String → Except Unit (List BadField)
  | [] => .ok []
  | vt :: vts => do
    let cur ← tagEntryResult v name nested fval vt
    let rest ← validateTagList v name nested fval vts
    .ok (cur ++ rest)

mutual

/-- `validateAndTagPrefix`: dereference one pointer level, panic
(`Except.error ()`) when `val.Type()` is called on the zero Value, return
`nil` for non-struct kinds, and walk the fields of a struct. -/
def V.validateAndTagPre (v : V) (nameTag pre : String) : GoValue → Except Unit (List BadField)
  | .invalid => .error ()
  | .ptrNil => .error ()
  | .ptrTo .invalid => .error ()
  | .ptrTo .ptrNil => .ok []
  | .ptrTo (.ptrTo _) => .ok []
  | .ptrTo (.strV _) => .ok []
  | .ptrTo (.intV _) => .ok []
  | .ptrTo (.structV fs) => V.validateStructFields v nameTag pre fs
  | .structV fs => V.validateStructFields v nameTag pre fs
  | .strV _ => .ok []
  | .intV _ => .ok []

/-- The field loop `for i := 0; i < t.NumField(); i++` of
`validateAndTagPrefix`, concatenating per-field contributions in
declaration order. -/
def V.validateStructFields (v : V) (nameTag pre : String) : Fields → Except Unit (List BadField)
  | .nil => .ok []
  | .cons f fs => do
    let e1 ← V.validateStructField v nameTag pre f
    let e2 ← V.validateStructFields v nameTag pre fs
    .ok (e1 ++ e2)

/-- One iteration of the field loop: skip fields with `CanInterface` false,
skip an empty `validate` tag, otherwise split the tag on commas and run the
entry loop.  The recursive-call result for a `struct` entry is passed to
`validateTagList` (each `struct` entry in the Go loop makes the same pure
recursive call). -/
def V.validateStructField (v : V) (nameTag pre : String) : StructField → Except Unit (List BadField)
  | .mk _ _ false _ => .ok []
  | .mk fname tags true fval =>
    let tag := tagGet tags "validate"
    if tag = "" then .ok []
    else
      let name := resolveName nameTag pre fname tags
      validateTagList v name (V.validateAndTagPre v nameTag name fval) fval (splitComma tag)

end

/-- `ValidateAndTag(s, nameTag)`: `validateAndTagPrefix(s, nameTag, "")`. -/
def V.ValidateAndTag (v : V) (s : GoValue) (nameTag : String) : Except Unit (List BadField) :=
  V.validateAndTagPre v nameTag "" s

/-- `Validate(s)`: `ValidateAndTag(s, "")`. -/
def V.Validate (v : V) (s : GoValue) : Except Unit (List BadField) :=
  V.ValidateAndTag v s ""

/- Concrete registries and records from the package's example and tests. -/

/-- The `long` validator of `ExampleValidate`: fails when `len(s) < 5`. -/
def longV : Validator := fun i =>
  match i with
  | .strV s => if s.length < 5 then some (goQuote s ++ " is too short") else none
  | _ => none

/-- The `short` validator of `ExampleValidate`: fails when `len(s) >= 5`. -/
def shortV : Validator := fun i =>
  match i with
  | .strV s => if s.length ≥ 5 then some (goQuote s ++ " is too long") else none
  | _ => none

/-- Registry `{long, short}` of `ExampleValidate`. -/
def vdLongShort : V := fun n =>
  if n = "long" then some longV
  else if n = "short" then some shortV
  else none

/-- The record of `ExampleValidate`:
`X{A:"hello there", B:"hi", C:"help me", D:"I am not validated"}` with tags
`A:long, B:short, C:"long,short", D:(none)`. -/
def xExample : GoValue :=
  .structV (.cons (.mk "A" [("validate", "long")] true (.strV "hello there"))
    (.cons (.mk "B" [("validate", "short")] true (.strV "hi"))
      (.cons (.mk "C" [("validate", "long,short")] true (.strV "help me"))
        (.cons (.mk "D" [] true (.strV "I am not validated")) .nil))))

/-- The `nonzero` validator of the tests: fails when `n == 0`. -/
def nonzeroV : Validator := fun i =>
  match i with
  | .intV n => if n = 0 then some "should be nonzero" else none
  | _ => none

/-- The `odd` validator of the tests: fails when `n&1 == 0`. -/
def oddV : Validator := fun i =>
  match i with
  | .intV n => if n % 2 = 0 then some (toString n ++ " is not odd") else none
  | _ => none

/-- The `odd` validator of `ExampleV_Validate_struct`: asserts its argument
to `X` (a one-int-field struct) and fails when `x.A&1 == 0`. -/
def oddXV : Validator := fun i =>
  match i with
  | .structV (.cons (.mk _ _ _ (.intV a)) .nil) =>
    if a % 2 = 0 then some (toString a ++ " is not odd") else none
  | _ => none

/-- Registry `{nonzero, odd}` of `TestV_Validate_multi`. -/
def vdNonzeroOdd : V := fun n =>
  if n = "nonzero" then some nonzeroV
  else if n = "odd" then some oddV
  else none

/-- The record of `TestV_Validate_multi`: `X{A:0}` with tag `A:"nonzero,odd"`. -/
def xMulti : GoValue :=
  .structV (.cons (.mk "A" [("validate", "nonzero,odd")] true (.intV 0)) .nil)

/-- The empty registry of `TestV_Validate_undef`. -/
def vdEmpty : V := fun _ => none

/-- The record of `TestV_Validate_undef`: `X{A:"oh my"}` with tag `A:oops`. -/
def xUndef : GoValue :=
  .structV (.cons (.mk "A" [("validate", "oops")] true (.strV "oh my")) .nil)

/-- Registry `{nonzero, odd}` of `ExampleV_Validate_struct`, whose `odd`
works on `X` values. -/
def vdStructEx : V := fun n =>
  if n = "nonzero" then some nonzeroV
  else if n = "odd" then some oddXV
  else none

/-- The inner record of `ExampleV_Validate_struct`: `X{A:0}` with tag `A:nonzero`. -/
def xInner : GoValue :=
  .structV (.cons (.mk "A" [("validate", "nonzero")] true (.intV 0)) .nil)

/-- The outer record of `ExampleV_Validate_struct`: `Y{X{A:0}}` with the
embedded field `X` tagged `"struct,odd"`. -/
def yStructEx : GoValue :=
  .structV (.cons (.mk "X" [("validate", "struct,odd")] true xInner) .nil)

/-- The record of `TestV_ValidateAndTag`: `X{A:2}` with tags
`validate:"odd" somethin:"hiya"`. -/
def xNamed : GoValue :=
  .structV (.cons (.mk "A" [("validate", "odd"), ("somethin", "hiya")] true (.intV 2)) .nil)

/-- Registry `{odd}` of `TestV_ValidateAndTag`. -/
def vdOdd : V := fun n => if n = "odd" then some oddV else none

/-- A record like `TestV_ValidateAndTag`'s but whose field lacks the
`somethin` tag key: `X{A:2}` with tag `validate:"odd"` only. -/
def xNamedMissing : GoValue :=
  .structV (.cons (.mk "A" [("validate", "odd")] true (.intV 2)) .nil)

/-- The record of `TestV_Validate_uninterfaceable`: `X{a:0}` with the
unexported field `a` tagged `validate:"nonzero"` (`CanInterface` false). -/
def xUnexported : GoValue :=
  .structV (.cons (.mk "a" [("validate", "nonzero")] false (.intV 0)) .nil)

/-- Registry holding only `between`, as a probe for bracketed parameters:
its validator fails on every value with message `CALLED`. -/
def vdBetween : V := fun n =>
  if n = "between" then some (fun _ => some "CALLED") else none

/-- A record with one field tagged `between[4,7]`. -/
def xBetween : GoValue :=
  .structV (.cons (.mk "A" [("validate", "between[4,7]")] true (.intV 5)) .nil)

/-- A record whose only field is a nil interface value tagged `struct`. -/
def xNilIface : GoValue :=
  .structV (.cons (.mk "I" [("validate", "struct")] true .invalid) .nil)

/- General lemmas about the embedding. -/

theorem splitCommaAux_length (cs : List Char) :
    ∀ acc, (splitCommaAux cs acc).length = cs.count ',' + 1 := by
  induction cs with
  | nil => intro acc; simp [splitCommaAux]
  | cons c cs ih =>
    intro acc
    by_cases h : c = ','
    · simp [splitCommaAux, h, ih, List.count_cons]
    · simp [splitCommaAux, h, ih, List.count_cons]

/-- `strings.Split(tag, ",")` splits at every comma: a tag with `n` commas
always yields `n + 1` entries, bracketed or not. -/
theorem splitComma_length (s : String) :
    (splitComma s).length = s.data.count ',' + 1 :=
  splitCommaAux_length s.data []

/-- The registry with the binding of the key `"struct"` replaced by `vf`. -/
def updateStruct (v : V) (vf : Validator) : V :=
  fun n => if n = "struct" then some vf else v n

theorem tagEntryResult_update (v : V) (vf : Validator) (name : String)
    (nested : Except Unit (List BadField)) (fval : GoValue) (vt : String) :
    tagEntryResult (updateStruct v vf) name nested fval vt =
      tagEntryResult v name nested fval vt := by
  by_cases h : vt = "struct"
  · simp [tagEntryResult, h]
  · simp [tagEntryResult, h, updateStruct]

theorem validateTagList_update (v : V) (vf : Validator) (name : String)
    (nested : Except Unit (List BadField)) (fval : GoValue) :
    ∀ vts, validateTagList (updateStruct v vf) name nested fval vts =
      validateTagList v name nested fval vts := by
  intro vts
  induction vts with
  | nil => rfl
  | cons vt vts ih =>
    simp only [validateTagList, tagEntryResult_update, ih]

mutual

/-- The traversal never consults the registry at key `"struct"`: replacing
that binding leaves every result unchanged. -/
theorem validateAndTagPre_update (v : V) (vf : Validator) (nameTag pre : String) :
    (s : GoValue) → V.validateAndTagPre (updateStruct v vf) nameTag pre s =
      V.validateAndTagPre v nameTag pre s
  | .invalid => rfl
  | .ptrNil => rfl
  | .ptrTo .invalid => rfl
  | .ptrTo .ptrNil => rfl
  | .ptrTo (.ptrTo _) => rfl
  | .ptrTo (.strV _) => rfl
  | .ptrTo (.intV _) => rfl
  | .ptrTo (.structV fs) => validateStructFields_update v vf nameTag pre fs
  | .structV fs => validateStructFields_update v vf nameTag pre fs
  | .strV _ => rfl
  | .intV _ => rfl

theorem validateStructFields_update (v : V) (vf : Validator) (nameTag pre : String) :
    (fs : Fields) → V.validateStructFields (updateStruct v vf) nameTag pre fs =
      V.validateStructFields v nameTag pre fs
  | .nil => rfl
  | .cons f fs => by
    simp only [V.validateStructFields]
    rw [validateStructField_update v vf nameTag pre f,
      validateStructFields_update v vf nameTag pre fs]

theorem validateStructField_update (v : V) (vf : Validator) (nameTag pre : String) :
    (f : StructField) → V.validateStructField (updateStruct v vf) nameTag pre f =
      V.validateStructField v nameTag pre f
  | .mk _ _ false _ => rfl
  | .mk fname tags true fval => by
    simp only [V.validateStructField]
    by_cases h : tagGet tags "validate" = ""
    · simp [h]
    · simp only [if_neg h]
      rw [validateAndTagPre_update v vf nameTag (resolveName nameTag pre fname tags) fval,
        validateTagList_update]

end

/-- A field the loop skips: `CanInterface` is false, or the `validate` tag
is absent/empty. -/
def fieldSkipped : StructField → Bool
  | .mk _ tags ci _ => !ci || tagGet tags "validate" == ""

/-- Every field of the list is skipped. -/
def allSkipped : Fields → Bool
  | .nil => true
  | .cons f fs => fieldSkipped f && allSkipped fs

theorem validateStructField_skipped (v : V) (nameTag pre : String) :
    ∀ f, fieldSkipped f = true → V.validateStructField v nameTag pre f = .ok []
  | .mk _ _ false _, _ => rfl
  | .mk fname tags true fval, h => by
    simp only [fieldSkipped, Bool.not_true, Bool.false_or, beq_iff_eq] at h
    simp [V.validateStructField, h]

theorem validateStructFields_skipped (v : V) (nameTag pre : String) :
    ∀ fs, allSkipped fs = true → V.validateStructFields v nameTag pre fs = .ok []
  | .nil, _ => rfl
  | .cons f fs, h => by
    simp only [allSkipped, Bool.and_eq_true] at h
    simp only [V.validateStructFields,
      validateStructField_skipped v nameTag pre f h.1,
      validateStructFields_skipped v nameTag pre fs h.2]
    rfl

/-- Values on which `validateAndTagPrefix` reaches the `t.Kind() != Struct`
early return: after the single pointer dereference the value is neither the
zero Value (which would panic) nor a struct. -/
def nonStructDeref : GoValue → Bool
  | .strV _ => true
  | .intV _ => true
  | .ptrTo .ptrNil => true
  | .ptrTo (.ptrTo _) => true
  | .ptrTo (.strV _) => true
  | .ptrTo (.intV _) => true
  | _ => false

theorem validateAndTagPre_nonStruct (v : V) (nameTag pre : String) :
    ∀ s, nonStructDeref s = true → V.validateAndTagPre v nameTag pre s = .ok []
  | .strV _, _ => rfl
  | .intV _, _ => rfl
  | .ptrTo .ptrNil, _ => rfl
  | .ptrTo (.ptrTo _), _ => rfl
  | .ptrTo (.strV _), _ => rfl
  | .ptrTo (.intV _), _ => rfl

/-- A `struct` entry whose recursive call returned no errors contributes
nothing, and the loop continues with the remaining entries. -/
theorem validateTagList_structEntry_empty (v : V) (name : String) (fval : GoValue)
    (vts : List String) :
    validateTagList v name (.ok []) fval ("struct" :: vts) =
      validateTagList v name (.ok []) fval vts := by
  simp only [validateTagList, tagEntryResult, if_pos rfl]
  cases validateTagList v name (.ok []) fval vts <;> rfl

/-- Splitting off the head entry of the loop: the head contribution and the
rest are concatenated in order. -/
theorem validateTagList_cons_ok (v : V) (name : String)
    (nested : Except Unit (List BadField)) (fval : GoValue) (vt : String)
    (vts : List String) (cur rest : List BadField)
    (hcur : tagEntryResult v name nested fval vt = .ok cur)
    (hrest : validateTagList v name nested fval vts = .ok rest) :
    validateTagList v name nested fval (vt :: vts) = .ok (cur ++ rest) := by
  simp only [validateTagList, hcur, hrest]
  rfl

/-- Splitting off the head field of the field loop. -/
theorem validateStructFields_cons_ok (v : V) (nameTag pre : String)
    (f : StructField) (fs : Fields) (e1 e2 : List BadField)
    (h1 : V.validateStructField v nameTag pre f = .ok e1)
    (h2 : V.validateStructFields v nameTag pre fs = .ok e2) :
    V.validateStructFields v nameTag pre (.cons f fs) = .ok (e1 ++ e2) := by
  simp only [V.validateStructFields, h1, h2]
  rfl

/-- An undefined-entry step: one `BadField` with the undefined-validator
message, then the rest of the loop. -/
theorem validateTagList_undef (v : V) (name : String)
    (nested : Except Unit (List BadField)) (fval : GoValue) (vt : String)
    (vts : List String) (hvt : vt ≠ "struct") (hv : v vt = none) :
    validateTagList v name nested fval (vt :: vts) =
      (validateTagList v name nested fval vts).map
        (fun rest => ⟨name, undefinedValidatorMsg vt⟩ :: rest) := by
  simp only [validateTagList, tagEntryResult, if_neg hvt, hv]
  cases validateTagList v name nested fval vts <;> rfl

/-- A defined-entry step: the validator is applied to the field's value as
its only argument, its optional failure is tagged with the resolved name,
and the loop continues. -/
theorem validateTagList_defined (v : V) (name : String)
    (nested : Except Unit (List BadField)) (fval : GoValue) (vt : String)
    (vts : List String) (vf : Validator) (hvt : vt ≠ "struct") (hv : v vt = some vf) :
    validateTagList v name nested fval (vt :: vts) =
      (validateTagList v name nested fval vts).map
        (fun rest =>
          (match vf fval with
            | some e => [⟨name, e⟩]
            | none => []) ++ rest) := by
  simp only [validateTagList, tagEntryResult, if_neg hvt, hv]
  cases h : vf fval <;>
    cases validateTagList v name nested fval vts <;> rfl

/-- In naming mode the declared field name is never consulted: two fields
differing only in declared name validate identically. -/
theorem validateStructField_declaredName_irrelevant (v : V) (nameTag pre : String)
    (hnt : nameTag ≠ "") (fname1 fname2 : String) (tags : List (String × String))
    (ci : Bool) (fval : GoValue) :
    V.validateStructField v nameTag pre (.mk fname1 tags ci fval) =
      V.validateStructField v nameTag pre (.mk fname2 tags ci fval) := by
  cases ci with
  | false => rfl
  | true => simp [V.validateStructField, resolveName, hnt]

/-- In naming mode the resolved path segment is the `nameTag` tag value,
which is `""` when the field lacks that key. -/
theorem resolveName_nameTag (nameTag pre fname : String)
    (tags : List (String × String)) (hnt : nameTag ≠ "") :
    resolveName nameTag pre fname tags =
      if pre.length > 0 then pre ++ "." ++ tagGet tags nameTag
      else tagGet tags nameTag := by
  simp [resolveName, hnt]

/-- A tag lookup for a key absent from the field's tag pairs yields `""`. -/
theorem tagGet_missing (tags : List (String × String)) (key : String)
    (h : ∀ p ∈ tags, p.1 ≠ key) : tagGet tags key = "" := by
  have : tags.find? (fun p => p.1 == key) = none := by
    apply List.find?_eq_none.mpr
    intro p hp
    simp [h p hp]
  simp [tagGet, this]

/- Claim theorems. -/

/-- C1 counterexample: the directive `between[4,7]` does not stay one
entry — `strings.Split` cuts it at the bracket-internal comma into
`between[4` and `7]`, and the engine treats those two strings as validator
names. -/
theorem C1_counterexample :
    splitComma "between[4,7]" = ["between[4", "7]"] ∧
    (splitComma "between[4,7]").length ≠ 1 ∧
    V.Validate vdBetween xBetween =
      .ok [⟨"A", undefinedValidatorMsg "between[4"⟩, ⟨"A", undefinedValidatorMsg "7]"⟩] :=
  ⟨by decide, by decide, rfl⟩

/-- C1 amended: directive parsing splits the tag at every comma with no
bracket awareness — a tag with `n` commas yields `n + 1` entries, so
`between[4,7]` yields the two entries `between[4` and `7]` and no
(name, parameter-list) structure exists. -/
theorem C1_amended :
    (∀ s : String, (splitComma s).length = s.data.count ',' + 1) ∧
    splitComma "between[4,7]" = ["between[4", "7]"] :=
  ⟨splitComma_length, by decide⟩

/-- C2 counterexample: with `between` registered (failing on every value
with message `CALLED`), a field tagged `between[4,7]` produces two
undefined-validator errors and no `CALLED` error — the registered validator
is never invoked and no parameters are extracted or passed. -/
theorem C2_counterexample :
    V.Validate vdBetween xBetween =
      .ok [⟨"A", undefinedValidatorMsg "between[4"⟩, ⟨"A", undefinedValidatorMsg "7]"⟩] ∧
    ([undefinedValidatorMsg "between[4", undefinedValidatorMsg "7]"].contains "CALLED") = false :=
  ⟨rfl, by decide⟩

/-- C2 amended: the registry holds validators of exactly one shape — a
function of the field's value returning an optional failure.  Each
directive entry is looked up verbatim, and a present validator is invoked
with the field's value as its only argument; its optional failure is tagged
with the resolved name and the loop continues. -/
theorem C2_amended (v : V) (name : String) (nested : Except Unit (List BadField))
    (fval : GoValue) (vt : String) (vts : List String) (vf : Validator)
    (hvt : vt ≠ "struct") (hv : v vt = some vf) :
    validateTagList v name nested fval (vt :: vts) =
      (validateTagList v name nested fval vts).map
        (fun rest =>
          (match vf fval with
            | some e => [⟨name, e⟩]
            | none => []) ++ rest) :=
  validateTagList_defined v name nested fval vt vts vf hvt hv

/-- C2 witness: the `odd` validator of `vdOdd`, registered under a
bracket-free name, is invoked with the field value `2` alone and its
failure is tagged `A`. -/
theorem C2_witness :
    validateTagList vdOdd "A" (.ok []) (.intV 2) ("odd" :: []) =
      (validateTagList vdOdd "A" (.ok []) (.intV 2) []).map
        (fun rest =>
          (match oddV (.intV 2) with
            | some e => [⟨"A", e⟩]
            | none => []) ++ rest) :=
  C2_amended vdOdd "A" (.ok []) (.intV 2) "odd" [] oddV (by decide) rfl

/-- C3: a nil input (nil interface, or a nil pointer whose `Elem` is the
zero `reflect.Value`) makes `Validate` panic in `reflect.Value.Type`
rather than return nil — the guard `t == nil` in `validateAndTagPrefix` is
dead code.  Valid non-struct inputs do return the empty result. -/
theorem C3_nil_behavior (v : V) :
    V.Validate v .invalid = .error () ∧
    V.Validate v .ptrNil = .error () ∧
    V.Validate v (.intV 7) = .ok [] ∧
    V.Validate v (.strV "x") = .ok [] ∧
    V.Validate v (.ptrTo (.intV 7)) = .ok [] ∧
    (∀ fs : Fields, V.Validate v (.ptrTo (.structV fs)) = V.Validate v (.structV fs)) :=
  ⟨rfl, rfl, rfl, rfl, rfl, fun _ => rfl⟩

/-- C4: an entry naming an absent validator appends exactly one error with
underlying message `undefined validator: "<name>"` tagged with the resolved
name, and the loop continues with the remaining entries; concretely the
record of `TestV_Validate_undef` yields exactly that one error. -/
theorem C4_undefined_validator :
    (∀ (v : V) (name : String) (nested : Except Unit (List BadField))
      (fval : GoValue) (vt : String) (vts : List String),
      vt ≠ "struct" → v vt = none →
      validateTagList v name nested fval (vt :: vts) =
        (validateTagList v name nested fval vts).map
          (fun rest => ⟨name, undefinedValidatorMsg vt⟩ :: rest)) ∧
    V.Validate vdEmpty xUndef = .ok [⟨"A", undefinedValidatorMsg "oops"⟩] ∧
    BadField.Error ⟨"A", undefinedValidatorMsg "oops"⟩ =
      "field A is invalid: undefined validator: \"oops\"" :=
  ⟨fun v name nested fval vt vts hvt hv =>
    validateTagList_undef v name nested fval vt vts hvt hv, rfl, rfl⟩

/-- C4 witness: the undefined entry `oops` before a further entry `x`
contributes its one tagged error and processing continues. -/
theorem C4_witness :
    validateTagList vdEmpty "A" (.ok []) (.strV "oh my") ("oops" :: ["x"]) =
      (validateTagList vdEmpty "A" (.ok []) (.strV "oh my") ["x"]).map
        (fun rest => ⟨"A", undefinedValidatorMsg "oops"⟩ :: rest) :=
  C4_undefined_validator.1 vdEmpty "A" (.ok []) (.strV "oh my") "oops" ["x"]
    (by decide) rfl

/-- C5: a `struct` entry recurses into the field's value with the resolved
name as the new prefix, appends the recursion's errors, and never consults
the registry at `"struct"` (replacing that binding changes nothing); a
non-empty prefix prepends `prefix ++ "."` to the resolved name; and the
`ExampleV_Validate_struct` scenario yields the nested error under `X.A`
followed by the `odd` error on the whole field value, in directive order. -/
theorem C5_struct_directive :
    (∀ (v : V) (vf : Validator) (nameTag pre : String) (s : GoValue),
      V.validateAndTagPre (updateStruct v vf) nameTag pre s =
        V.validateAndTagPre v nameTag pre s) ∧
    (∀ (v : V) (name : String) (nested : Except Unit (List BadField))
      (fval : GoValue) (vts : List String),
      validateTagList v name nested fval ("struct" :: vts) =
        nested.bind (fun e =>
          (validateTagList v name nested fval vts).bind (fun r => .ok (e ++ r)))) ∧
    (∀ (nameTag fname : String) (tags : List (String × String)) (p : String),
      0 < p.length →
      resolveName nameTag p fname tags = p ++ "." ++ resolveName nameTag "" fname tags) ∧
    V.Validate vdStructEx yStructEx =
      .ok [⟨"X.A", "should be nonzero"⟩, ⟨"X", "0 is not odd"⟩] :=
  ⟨fun v vf nameTag pre s => validateAndTagPre_update v vf nameTag pre s,
    fun _ _ _ _ _ => rfl,
    fun nameTag fname tags p hp => by simp [resolveName, hp],
    rfl⟩

/-- C5 witness: with the non-empty prefix `X`, the resolved name is
`X.A`. -/
theorem C5_witness :
    0 < ("X" : String).length ∧
    resolveName "" "X" "A" [] = "X" ++ "." ++ resolveName "" "" "A" [] :=
  ⟨by decide, C5_struct_directive.2.2.1 "" "A" [] "X" (by decide)⟩

/-- C6: the `ExampleValidate` scenario — registry `{long, short}` against
`{A:"hello there", B:"hi", C:"help me", D:"I am not validated"}` — returns
exactly one error, rendered `field C is invalid: "help me" is too long`. -/
theorem C6_example_scenario :
    V.Validate vdLongShort xExample = .ok [⟨"C", goQuote "help me" ++ " is too long"⟩] ∧
    (V.Validate vdLongShort xExample).map (List.map BadField.Error) =
      .ok ["field C is invalid: \"help me\" is too long"] :=
  ⟨rfl, rfl⟩

/-- C7: failures accumulate instead of aborting — per-field contributions
concatenate in declaration order, per-entry contributions concatenate in
directive order, and the `TestV_Validate_multi` record (two failing
validators on one field) yields two entries in directive order, both tagged
with that field's name. -/
theorem C7_collect_order :
    (∀ (v : V) (nameTag pre : String) (f : StructField) (fs : Fields)
      (e1 e2 : List BadField),
      V.validateStructField v nameTag pre f = .ok e1 →
      V.validateStructFields v nameTag pre fs = .ok e2 →
      V.validateStructFields v nameTag pre (.cons f fs) = .ok (e1 ++ e2)) ∧
    (∀ (v : V) (name : String) (nested : Except Unit (List BadField))
      (fval : GoValue) (vt : String) (vts : List String) (cur rest : List BadField),
      tagEntryResult v name nested fval vt = .ok cur →
      validateTagList v name nested fval vts = .ok rest →
      validateTagList v name nested fval (vt :: vts) = .ok (cur ++ rest)) ∧
    V.Validate vdNonzeroOdd xMulti =
      .ok [⟨"A", "should be nonzero"⟩, ⟨"A", "0 is not odd"⟩] ∧
    (V.Validate vdNonzeroOdd xMulti).map (List.map BadField.Error) =
      .ok ["field A is invalid: should be nonzero", "field A is invalid: 0 is not odd"] :=
  ⟨fun v nameTag pre f fs e1 e2 h1 h2 =>
    validateStructFields_cons_ok v nameTag pre f fs e1 e2 h1 h2,
    fun v name nested fval vt vts cur rest hcur hrest =>
      validateTagList_cons_ok v name nested fval vt vts cur rest hcur hrest,
    rfl, rfl⟩

/-- C7 witness: the undefined-validator field contribution concatenates
before the empty tail of the field list. -/
theorem C7_witness :
    V.validateStructFields vdEmpty "" ""
      (.cons (.mk "A" [("validate", "oops")] true (.strV "oh my")) .nil) =
      .ok ([⟨"A", undefinedValidatorMsg "oops"⟩] ++ []) :=
  C7_collect_order.1 vdEmpty "" "" (.mk "A" [("validate", "oops")] true (.strV "oh my"))
    .nil [⟨"A", undefinedValidatorMsg "oops"⟩] [] rfl rfl

/-- C8: a field with an empty/absent `validate` tag contributes nothing
regardless of its value; a field with `CanInterface` false is skipped even
when tagged; a record all of whose fields are skipped yields the empty
result; and the `TestV_Validate_uninterfaceable` record concretely yields
no errors. -/
theorem C8_skip_fields :
    (∀ (v : V) (nameTag pre fname : String) (tags : List (String × String))
      (fval : GoValue), tagGet tags "validate" = "" →
      V.validateStructField v nameTag pre (.mk fname tags true fval) = .ok []) ∧
    (∀ (v : V) (nameTag pre fname : String) (tags : List (String × String))
      (fval : GoValue),
      V.validateStructField v nameTag pre (.mk fname tags false fval) = .ok []) ∧
    (∀ (v : V) (fs : Fields), allSkipped fs = true →
      V.Validate v (.structV fs) = .ok []) ∧
    V.Validate vdNonzeroOdd xUnexported = .ok [] :=
  ⟨fun v nameTag pre fname tags fval h =>
    validateStructField_skipped v nameTag pre (.mk fname tags true fval)
      (by simp [fieldSkipped, h]),
    fun v nameTag pre fname tags fval =>
      validateStructField_skipped v nameTag pre (.mk fname tags false fval) rfl,
    fun v fs h => validateStructFields_skipped v "" "" fs h,
    rfl⟩

/-- C8 witness: an untagged field with a failing value would contribute
nothing, and the all-skipped record of `TestV_Validate_uninterfaceable`
yields the empty result. -/
theorem C8_witness :
    tagGet [] "validate" = "" ∧
    V.validateStructField vdNonzeroOdd "" "" (.mk "D" [] true (.intV 0)) = .ok [] ∧
    allSkipped (.cons (.mk "a" [("validate", "nonzero")] false (.intV 0)) .nil) = true ∧
    V.Validate vdNonzeroOdd
      (.structV (.cons (.mk "a" [("validate", "nonzero")] false (.intV 0)) .nil)) = .ok [] :=
  ⟨rfl, C8_skip_fields.1 vdNonzeroOdd "" "" "D" [] (.intV 0) rfl, rfl,
    C8_skip_fields.2.2.1 vdNonzeroOdd
      (.cons (.mk "a" [("validate", "nonzero")] false (.intV 0)) .nil) rfl⟩

/-- C9: with a non-empty `nameTag`, the declared field name is never
consulted (two fields differing only in declared name validate
identically), the resolved path segment is the `nameTag` tag value, a field
lacking that key resolves to the empty segment, and the
`TestV_ValidateAndTag` record reports `hiya` while its key-less variant
reports the empty name. -/
theorem C9_naming_mode :
    (∀ (v : V) (nameTag pre : String), nameTag ≠ "" →
      ∀ (fname1 fname2 : String) (tags : List (String × String)) (ci : Bool)
        (fval : GoValue),
        V.validateStructField v nameTag pre (.mk fname1 tags ci fval) =
          V.validateStructField v nameTag pre (.mk fname2 tags ci fval)) ∧
    (∀ (nameTag pre fname : String) (tags : List (String × String)), nameTag ≠ "" →
      resolveName nameTag pre fname tags =
        if pre.length > 0 then pre ++ "." ++ tagGet tags nameTag
        else tagGet tags nameTag) ∧
    (∀ (tags : List (String × String)) (key : String),
      (∀ p ∈ tags, p.1 ≠ key) → tagGet tags key = "") ∧
    V.ValidateAndTag vdOdd xNamed "somethin" = .ok [⟨"hiya", "2 is not odd"⟩] ∧
    V.ValidateAndTag vdOdd xNamedMissing "somethin" = .ok [⟨"", "2 is not odd"⟩] :=
  ⟨fun v nameTag pre hnt fname1 fname2 tags ci fval =>
    validateStructField_declaredName_irrelevant v nameTag pre hnt fname1 fname2 tags ci fval,
    fun nameTag pre fname tags hnt => resolveName_nameTag nameTag pre fname tags hnt,
    fun tags key h => tagGet_missing tags key h,
    rfl, rfl⟩

/-- C9 witness: under naming mode `somethin`, a field without that tag key
resolves to the empty path segment. -/
theorem C9_witness :
    resolveName "somethin" "" "A" [("validate", "odd")] =
      (if ("" : String).length > 0 then "" ++ "." ++ tagGet [("validate", "odd")] "somethin"
        else tagGet [("validate", "odd")] "somethin") ∧
    tagGet [("validate", "odd")] "somethin" = "" :=
  ⟨C9_naming_mode.2.1 "somethin" "" "A" [("validate", "odd")] (by decide),
    C9_naming_mode.2.2.1 [("validate", "odd")] "somethin" (by decide)⟩

/-- C10 counterexample: a field whose value is a nil interface (neither a
record nor a non-nil reference) tagged `struct` makes the recursive call
panic — the whole validation aborts with a panic instead of the entry
contributing no errors. -/
theorem C10_counterexample :
    V.Validate vdEmpty xNilIface = .error () ∧
    V.Validate vdEmpty xNilIface ≠ .ok [] :=
  ⟨rfl, fun h => Except.noConfusion h⟩

/-- C10 amended: a `struct` entry whose field value is, after the single
pointer dereference, a valid non-record value (a string, an int, or a
non-nil pointer to a non-record) gets an empty recursion result,
contributes no errors, and processing continues with the remaining entries;
a nil interface or nil pointer value instead panics in the recursion. -/
theorem C10_amended :
    (∀ (v : V) (nameTag pre : String) (s : GoValue), nonStructDeref s = true →
      V.validateAndTagPre v nameTag pre s = .ok []) ∧
    (∀ (v : V) (name : String) (fval : GoValue) (vts : List String),
      validateTagList v name (.ok []) fval ("struct" :: vts) =
        validateTagList v name (.ok []) fval vts) :=
  ⟨fun v nameTag pre s h => validateAndTagPre_nonStruct v nameTag pre s h,
    fun v name fval vts => validateTagList_structEntry_empty v name fval vts⟩

/-- C10 witness: a `struct` entry on a plain string value contributes
nothing. -/
theorem C10_witness :
    nonStructDeref (.strV "hi") = true ∧
    V.validateAndTagPre vdEmpty "" "A" (.strV "hi") = .ok [] :=
  ⟨rfl, C10_amended.1 vdEmpty "" "A" (.strV "hi") rfl⟩

end Validate
